import Mathlib

/-!
# ShadingEngineExporter

A shallow embedding of `src/appleseedmaya/exporters/shadingengineexporter.cpp`:
the exporter that turns a host shading engine node into a renderer material and
one or two surface shaders.

The exporter's members become the fields of a structure, and each method becomes
a function on that structure.  The destination assembly is a reference shared
with the session, so it is passed in and returned.  A result of `none` means
the call left what the model covers: a null handle was dereferenced, an entity
the handle does not own was transferred, or a removal named no member of the
collection.
-/

namespace ShadingEngine

/-! ## Host side: dependency nodes and plugs -/

/-- A plug of some node, as `connectedTo` returns it: the node it belongs to and
its attribute name. -/
structure PlugRef where
  node : Nat
  attr : String
  deriving DecidableEq, Repr

/-- What the exporter asks of an `MPlug`: `isConnected()`, the plugs returned by
`connectedTo(_, true, false)` (sources feeding this plug), and
`numConnectedChildren()`.  The three answers are kept independent. -/
structure MPlug where
  isConnected : Bool
  connectedTo : List PlugRef
  numConnectedChildren : Nat
  deriving DecidableEq, Repr

/-- The plug `findPlug` hands back when the node has no such attribute: it is
not connected and has no connected children. -/
def MPlug.null : MPlug := ⟨false, [], 0⟩

/-- A dependency node: its name and its plugs by attribute name. -/
structure DependNode where
  name : String
  plugs : List (String × MPlug)
  deriving DecidableEq, Repr

/-- The host scene: the node behind each `MObject`. -/
abbrev Graph := Nat → DependNode

/-- `MFnDependencyNode::findPlug`. -/
def findPlug (d : DependNode) (attr : String) : MPlug :=
  match d.plugs.lookup attr with
  | some p => p
  | none => MPlug.null

/-! ## Session services -/

/-- The two contexts a shading network is exported in. -/
inductive ShadingNetworkContext
  | SurfaceNetworkContext
  | ShadingMapNetworkContext
  deriving DecidableEq, Repr

/-- Modelled from the spec: the shading network sub-exporter, declared in
`shadingnetworkexporter.h`.  It is used only through `shaderGroupName()`. -/
structure ShadingNetworkExporter where
  shaderGroupName : String
  deriving DecidableEq, Repr

/-- Modelled from the spec: the session services factory
`createShadingNetworkExporter(context, node, plug) -> subExporterHandle`. -/
abbrev Services := ShadingNetworkContext → Nat → PlugRef → ShadingNetworkExporter

/-- `AppleseedSession::SessionMode`, as far as the spec names its values. -/
inductive SessionMode
  | ProgressiveRenderSession
  | FinalRenderSession
  deriving DecidableEq, Repr

/-! ## Renderer side: entities, parameters, the assembly -/

/-- String-keyed parameters of an entity, in insertion order. -/
structure ParamArray where
  entries : List (String × String)
  deriving DecidableEq, Repr

/-- The result of `asr::ParamArray()`. -/
def ParamArray.empty : ParamArray := ⟨[]⟩

/-- `ParamArray::insert`: sets the key, replacing an earlier value. -/
def ParamArray.insert (ps : ParamArray) (k v : String) : ParamArray :=
  ⟨ps.entries.filter (fun kv => kv.1 ≠ k) ++ [(k, v)]⟩

/-- The value stored under a key, if any. -/
def ParamArray.get (ps : ParamArray) (k : String) : Option String :=
  ps.entries.lookup k

/-- The factories the exporter creates entities with. -/
inductive EntityModel
  | PhysicalSurfaceShader
  | OSLSurfaceShader
  | OSLMaterial
  deriving DecidableEq, Repr

/-- A renderer entity.  `uid` is its identity (what a raw pointer to it
compares by); two entities alive at once have different `uid`s. -/
structure Entity where
  uid : Nat
  model : EntityModel
  name : String
  params : ParamArray
  deriving DecidableEq, Repr

/-- `entity->get_parameters().insert(k, v)`. -/
def Entity.insertParam (e : Entity) (k v : String) : Entity :=
  { e with params := e.params.insert k v }

/-- A factory `create(name, params)`: a new entity with the next free
identity. -/
def createEntity (uid : Nat) (model : EntityModel) (name : String) (params : ParamArray) :
    Entity :=
  ⟨uid, model, name, params⟩

/-- The two entity collections of the assembly the exporter touches. -/
structure Assembly where
  materials : List Entity
  surface_shaders : List Entity
  deriving DecidableEq, Repr

/-- Which collection a call addresses. -/
inductive Collection
  | materials
  | surface_shaders
  deriving DecidableEq, Repr

/-- Collection `insert`: the collection takes the entity, added at the end. -/
def EntityVector.insert (v : List Entity) (e : Entity) : List Entity :=
  v ++ [e]

/-- Modelled from the spec: collection `remove`, removal "by identity".  It
takes the member whose identity the pointer carries out of the collection.  A
null pointer or a pointer to no member gives `none`. -/
def EntityVector.remove (v : List Entity) (ptr : Option Nat) : Option (List Entity) :=
  match ptr with
  | none => none
  | some u =>
    if v.any (fun e => e.uid == u) then some (v.eraseP (fun e => e.uid == u)) else none

/-! ## Entity handles -/

/-- What `get()` answers after `release()`.  The handle class is declared in a
header that is not among the sources, so both behaviours are modelled:
`keepsPointer` (the handle gives up ownership and still points at the entity)
and `clearsPointer` (the handle becomes null). -/
inductive ReleasePolicy
  | keepsPointer
  | clearsPointer
  deriving DecidableEq, Repr

/-- Modelled from the spec: the handle type of `m_material`, `m_surfaceShader`
and `m_shadingMapSurfaceShader`, whose declaration is not among the sources.
The spec has the exporter own its entities "by exclusive/transferable ownership
until flush", has the transfer happen "via a move/release; after transfer the
component no longer owns them", and has destruction remove "by pointer identity"
the entities the instance inserted.  `ptr` is what the handle points at,
`owned` whether the handle still owns it. -/
structure Handle where
  ptr : Option Entity
  owned : Bool
  deriving DecidableEq, Repr

/-- A handle holding nothing. -/
def Handle.null : Handle := ⟨none, false⟩

/-- `handle.get()`: the raw pointer, null as `none`. -/
def Handle.get (h : Handle) : Option Nat :=
  h.ptr.map (fun e => e.uid)

/-- `handle.reset(entity)`: the handle now owns the new entity. -/
def Handle.reset (_h : Handle) (e : Entity) : Handle :=
  ⟨some e, true⟩

/-- `handle.release()`: gives the owned entity away.  `none` when the handle
owns nothing. -/
def Handle.release (p : ReleasePolicy) (h : Handle) : Option (Entity × Handle) :=
  match h.ptr, h.owned with
  | some e, true =>
    match p with
    | ReleasePolicy.keepsPointer => some (e, ⟨some e, false⟩)
    | ReleasePolicy.clearsPointer => some (e, Handle.null)
  | _, _ => none

/-- `handle->get_parameters().insert(k, v)` on an entity the handle owns.
`none` when the handle is null or no longer owns the entity. -/
def Handle.insertParam (h : Handle) (k v : String) : Option Handle :=
  match h.ptr, h.owned with
  | some e, true => some ⟨some (e.insertParam k v), true⟩
  | _, _ => none

/-! ## The exporter -/

/-- The members of `ShadingEngineExporter`; `m_mainAssembly` is a reference and
is threaded through the methods instead. -/
structure ShadingEngineExporter where
  m_object : Nat
  m_sessionMode : SessionMode
  m_surfaceNetworkExporter : Option ShadingNetworkExporter
  m_shadingMapNetworkExporter : Option ShadingNetworkExporter
  m_material : Handle
  m_surfaceShader : Handle
  m_shadingMapSurfaceShader : Handle
  deriving DecidableEq, Repr

/-- The constructor: binds node and session mode, creates nothing. -/
def ShadingEngineExporter.new (object : Nat) (sessionMode : SessionMode) :
    ShadingEngineExporter :=
  { m_object := object
    m_sessionMode := sessionMode
    m_surfaceNetworkExporter := none
    m_shadingMapNetworkExporter := none
    m_material := Handle.null
    m_surfaceShader := Handle.null
    m_shadingMapSurfaceShader := Handle.null }

/-- The exporter holds no entity: its three handles are null. -/
def ShadingEngineExporter.holdsNoEntities (x : ShadingEngineExporter) : Prop :=
  x.m_material = Handle.null ∧ x.m_surfaceShader = Handle.null ∧
    x.m_shadingMapSurfaceShader = Handle.null

instance (x : ShadingEngineExporter) : Decidable x.holdsNoEntities := by
  unfold ShadingEngineExporter.holdsNoEntities; infer_instance

/-- What `createExporters` does that is visible outside the exporter. -/
inductive Event
  | warning (msg : String)
  | createShadingNetworkExporter (context : ShadingNetworkContext) (node : Nat) (plug : PlugRef)
  deriving DecidableEq, Repr

/-- The text of the one warning the exporter logs. -/
def unsupportedComponentConnection : String :=
  "Unsupported component connection to shading engine."

/-- The state `createExporters` works on: the exporter, the node the local
`depNodeFn` is bound to, and the events so far. -/
structure CreateState where
  self : ShadingEngineExporter
  depNodeFn : Nat
  log : List Event
  deriving DecidableEq, Repr

/-- Lines 73-91 of `createExporters`: the "surfaceShader" input. -/
def createExporters_surfaceShader (g : Graph) (services : Services) (st : CreateState) :
    CreateState :=
  let plug := findPlug (g st.depNodeFn) "surfaceShader"
  if plug.isConnected then
    match plug.connectedTo with
    | [other] =>
      -- otherPlugs.length() == 1
      let otherNode := other.node
      { self := { st.self with
                  m_surfaceNetworkExporter :=
                    some (services ShadingNetworkContext.SurfaceNetworkContext otherNode other) }
        depNodeFn := otherNode
        log := st.log ++
          [Event.createShadingNetworkExporter ShadingNetworkContext.SurfaceNetworkContext
            otherNode other] }
    | _ => st
  else if plug.numConnectedChildren ≠ 0 then
    { st with log := st.log ++ [Event.warning unsupportedComponentConnection] }
  else st

/-- Lines 93-111 of `createExporters`: the "asShadingMap" input, looked up
through the same `depNodeFn`. -/
def createExporters_asShadingMap (g : Graph) (services : Services) (st : CreateState) :
    CreateState :=
  let plug := findPlug (g st.depNodeFn) "asShadingMap"
  if plug.isConnected then
    match plug.connectedTo with
    | [other] =>
      let otherNode := other.node
      { self := { st.self with
                  m_shadingMapNetworkExporter :=
                    some (services ShadingNetworkContext.ShadingMapNetworkContext otherNode other) }
        depNodeFn := otherNode
        log := st.log ++
          [Event.createShadingNetworkExporter ShadingNetworkContext.ShadingMapNetworkContext
            otherNode other] }
    | _ => st
  else if plug.numConnectedChildren ≠ 0 then
    { st with log := st.log ++ [Event.warning unsupportedComponentConnection] }
  else st

/-- `ShadingEngineExporter::createExporters`: `depNodeFn` starts on `m_object`,
then the two inputs are handled in turn.  Returns the exporter and the events. -/
def createExporters (g : Graph) (services : Services) (x : ShadingEngineExporter) :
    ShadingEngineExporter × List Event :=
  let st0 : CreateState := { self := x, depNodeFn := x.m_object, log := [] }
  let st1 := createExporters_surfaceShader g services st0
  let st2 := createExporters_asShadingMap g services st1
  (st2.self, st2.log)

/-- `ShadingEngineExporter::createEntities`.  `next` is the next free entity
identity; the new counter is returned with the exporter. -/
def createEntities (g : Graph) (x : ShadingEngineExporter) (next : Nat) :
    ShadingEngineExporter × Nat :=
  let appleseedName := (g x.m_object).name
  -- Create a surface shader.
  let surfaceShaderName := appleseedName ++ "_surface_shader"
  let surfaceShader :=
    createEntity next EntityModel.PhysicalSurfaceShader surfaceShaderName ParamArray.empty
  let x1 := { x with m_surfaceShader := x.m_surfaceShader.reset surfaceShader }
  -- Check if we have a shading map shader.
  let r2 : ShadingEngineExporter × Nat :=
    if x1.m_shadingMapNetworkExporter.isSome then
      let shadingMapShaderName := appleseedName ++ "_shading_map_surface_shader"
      let shadingMapShader :=
        createEntity (next + 1) EntityModel.OSLSurfaceShader shadingMapShaderName
          (ParamArray.empty.insert "surface_shader" surfaceShader.name)
      ({ x1 with m_shadingMapSurfaceShader := x1.m_shadingMapSurfaceShader.reset shadingMapShader },
        next + 2)
    else (x1, next + 1)
  let x2 := r2.1
  -- Create the material.
  let materialName := appleseedName ++ "_material"
  let material := createEntity r2.2 EntityModel.OSLMaterial materialName ParamArray.empty
  -- Set the surface shader in the material.
  let material :=
    match x2.m_shadingMapSurfaceShader.ptr with
    | some sm => material.insertParam "surface_shader" sm.name
    | none => material.insertParam "surface_shader" surfaceShader.name
  ({ x2 with m_material := x2.m_material.reset material }, r2.2 + 1)

/-- `ShadingEngineExporter::flushEntities`. -/
def flushEntities (p : ReleasePolicy) (x : ShadingEngineExporter) (asm : Assembly) :
    Option (ShadingEngineExporter × Assembly) := do
  let mat ←
    match x.m_surfaceNetworkExporter with
    | some sn => x.m_material.insertParam "osl_surface" sn.shaderGroupName
    | none => some x.m_material
  let (m, hm) ← mat.release p
  let asm1 := { asm with materials := EntityVector.insert asm.materials m }
  let (hs, asm2) ←
    if x.m_surfaceShader.get.isSome then
      (x.m_surfaceShader.release p).map
        (fun r => (r.2, { asm1 with surface_shaders := EntityVector.insert asm1.surface_shaders r.1 }))
    else some (x.m_surfaceShader, asm1)
  let sm ←
    match x.m_shadingMapNetworkExporter with
    | some mn => x.m_shadingMapSurfaceShader.insertParam "osl_shader" mn.shaderGroupName
    | none => some x.m_shadingMapSurfaceShader
  let (hsm, asm3) ←
    if sm.get.isSome then
      (sm.release p).map
        (fun r => (r.2, { asm2 with surface_shaders := EntityVector.insert asm2.surface_shaders r.1 }))
    else some (sm, asm2)
  some ({ x with m_material := hm, m_surfaceShader := hs, m_shadingMapSurfaceShader := hsm }, asm3)

/-- The `remove` calls the destructor issues, in order: which collection and
which pointer. -/
def removalRequests (x : ShadingEngineExporter) : List (Collection × Option Nat) :=
  if x.m_sessionMode = SessionMode.ProgressiveRenderSession then
    [(Collection.materials, x.m_material.get),
     (Collection.surface_shaders, x.m_surfaceShader.get)] ++
      (if x.m_shadingMapSurfaceShader.get.isSome then
        [(Collection.surface_shaders, x.m_shadingMapSurfaceShader.get)]
       else [])
  else []

/-- One `remove` call on the assembly. -/
def Assembly.remove (asm : Assembly) (r : Collection × Option Nat) : Option Assembly :=
  match r.1 with
  | Collection.materials =>
    (EntityVector.remove asm.materials r.2).map (fun v => { asm with materials := v })
  | Collection.surface_shaders =>
    (EntityVector.remove asm.surface_shaders r.2).map (fun v => { asm with surface_shaders := v })

/-- Runs `remove` calls in order. -/
def Assembly.removeAll : List (Collection × Option Nat) → Assembly → Option Assembly
  | [], asm => some asm
  | r :: rs, asm =>
    match asm.remove r with
    | some asm1 => Assembly.removeAll rs asm1
    | none => none

/-- `ShadingEngineExporter::~ShadingEngineExporter`: its effect on the
assembly. -/
def destructor (x : ShadingEngineExporter) (asm : Assembly) : Option Assembly :=
  Assembly.removeAll (removalRequests x) asm

/-- Every entity of the assembly was created before identity `next` was
handed out. -/
def Assembly.below (asm : Assembly) (next : Nat) : Prop :=
  (∀ e ∈ asm.materials, e.uid < next) ∧ (∀ e ∈ asm.surface_shaders, e.uid < next)

instance (asm : Assembly) (next : Nat) : Decidable (asm.below next) := by
  unfold Assembly.below; infer_instance

/-- How many entities of a collection carry a name. -/
def countNamed (v : List Entity) (name : String) : Nat :=
  v.countP (fun e => e.name == name)

/-- The names of the surface shaders the exporter points at. -/
def surfaceShaderNames (x : ShadingEngineExporter) : List String :=
  (x.m_surfaceShader.ptr.map (fun e => e.name)).toList ++
    (x.m_shadingMapSurfaceShader.ptr.map (fun e => e.name)).toList

/-! ## Concrete scenes -/

/-- A services factory whose sub-exporters are named after context, node and
plug. -/
def demoServices : Services := fun c n p =>
  ⟨(match c with
    | ShadingNetworkContext.SurfaceNetworkContext => "surface_"
    | ShadingNetworkContext.ShadingMapNetworkContext => "shading_map_") ++
    toString n ++ "_" ++ p.attr⟩

/-- A plug fed by exactly one source. -/
def plugFrom (n : Nat) (attr : String) : MPlug := ⟨true, [⟨n, attr⟩], 0⟩

/-- A plug with nothing connected. -/
def plugFree : MPlug := ⟨false, [], 0⟩

/-- Scene A.  Node 0 is the shading engine `sg`: "surfaceShader" is fed by
`lambert1.outColor` (node 1), "asShadingMap" by `map1.outColor` (node 2).  Node 1
has no "asShadingMap" attribute. -/
def sceneBoth : Graph := fun n =>
  match n with
  | 0 => ⟨"sg", [("surfaceShader", plugFrom 1 "outColor"), ("asShadingMap", plugFrom 2 "outColor")]⟩
  | 1 => ⟨"lambert1", [("outColor", ⟨true, [], 0⟩)]⟩
  | 2 => ⟨"map1", [("outColor", ⟨true, [], 0⟩)]⟩
  | _ => ⟨"", []⟩

/-- Scene B.  Node 0 is the shading engine `sg`: "surfaceShader" is fed by
`shader1.outColor` (node 1), "asShadingMap" is unconnected.  Node 1 has an
"asShadingMap" attribute of its own, fed by `map1.outColor` (node 2). -/
def sceneUpstreamMap : Graph := fun n =>
  match n with
  | 0 => ⟨"sg", [("surfaceShader", plugFrom 1 "outColor"), ("asShadingMap", plugFree)]⟩
  | 1 => ⟨"shader1", [("outColor", ⟨true, [], 0⟩), ("asShadingMap", plugFrom 2 "outColor")]⟩
  | 2 => ⟨"map1", [("outColor", ⟨true, [], 0⟩)]⟩
  | _ => ⟨"", []⟩

/-- An assembly that already holds one material and one surface shader. -/
def demoAssembly : Assembly :=
  { materials := [⟨0, EntityModel.OSLMaterial, "other_material", ParamArray.empty⟩]
    surface_shaders := [⟨1, EntityModel.PhysicalSurfaceShader, "other_surface_shader",
      ParamArray.empty⟩] }

/-- Scene C.  Node 0 is the shading engine `sg`.  Both of its inputs report
being connected, and neither has a source feeding it (each is only the origin
of a connection). -/
def sceneNoSource : Graph := fun n =>
  match n with
  | 0 => ⟨"sg", [("surfaceShader", ⟨true, [], 0⟩), ("asShadingMap", ⟨true, [], 0⟩)]⟩
  | _ => ⟨"", []⟩

/-- Scene D.  Node 0 is the shading engine `sg`, whose "surfaceShader" plug has
no connection of its own and three connected children. -/
def sceneComponents : Graph := fun n =>
  match n with
  | 0 => ⟨"sg", [("surfaceShader", ⟨false, [], 3⟩), ("asShadingMap", plugFree)]⟩
  | _ => ⟨"", []⟩

/-- Scene E.  Two shading engines: node 0 is named `a_shading_map` and has
nothing connected, node 1 is named `a` and has "asShadingMap" fed by
`map1.outColor` (node 2). -/
def sceneTwoEngines : Graph := fun n =>
  match n with
  | 0 => ⟨"a_shading_map", [("surfaceShader", plugFree), ("asShadingMap", plugFree)]⟩
  | 1 => ⟨"a", [("surfaceShader", plugFree), ("asShadingMap", plugFrom 2 "outColor")]⟩
  | 2 => ⟨"map1", [("outColor", ⟨true, [], 0⟩)]⟩
  | _ => ⟨"", []⟩

/-- The attribute name of the input each context is resolved from. -/
def inputName : ShadingNetworkContext → String
  | ShadingNetworkContext.SurfaceNetworkContext => "surfaceShader"
  | ShadingNetworkContext.ShadingMapNetworkContext => "asShadingMap"

/-- The part of `createExporters` that handles the input of a context. -/
def createExporters_input :
    ShadingNetworkContext → Graph → Services → CreateState → CreateState
  | ShadingNetworkContext.SurfaceNetworkContext => createExporters_surfaceShader
  | ShadingNetworkContext.ShadingMapNetworkContext => createExporters_asShadingMap

/-- The name of the entity a handle points at. -/
def Handle.name (h : Handle) : Option String :=
  h.ptr.map (fun e => e.name)

/-- A parameter of the entity a handle points at. -/
def Handle.param (h : Handle) (k : String) : Option String :=
  h.ptr.bind (fun e => e.params.get k)

/-- Constructor, `createExporters`, `createEntities` in this order: the exporter
as it stands before `flushEntities`. -/
def allocated (g : Graph) (services : Services) (object : Nat) (mode : SessionMode)
    (next : Nat) : ShadingEngineExporter :=
  (createEntities g (createExporters g services (ShadingEngineExporter.new object mode)).1 next).1

/-! ## Auxiliary facts -/

theorem str_append_right_cancel {a b s : String} (h : a ++ s = b ++ s) : a = b := by
  have h1 := congrArg String.data h
  simp only [String.data_append] at h1
  exact String.ext (List.append_cancel_right h1)

theorem str_append_left_cancel {a s t : String} (h : a ++ s = a ++ t) : s = t := by
  have h1 := congrArg String.data h
  simp only [String.data_append] at h1
  exact String.ext (List.append_cancel_left h1)

theorem lookup_filter_append_self (l : List (String × String)) (k v : String) :
    (l.filter (fun kv => kv.1 ≠ k) ++ [(k, v)]).lookup k = some v := by
  induction l with
  | nil => simp [List.lookup]
  | cons kv rest ih =>
    by_cases hk : kv.1 = k
    · simpa [List.filter_cons, hk] using ih
    · have hb : (k == kv.1) = false := by simpa using fun h => hk h.symm
      simpa [List.filter_cons, hk, List.lookup, hb] using ih

theorem lookup_filter_append_other (l : List (String × String)) (k k2 v : String)
    (h : k2 ≠ k) :
    (l.filter (fun kv => kv.1 ≠ k) ++ [(k, v)]).lookup k2 = l.lookup k2 := by
  have hb : (k2 == k) = false := by simpa using h
  induction l with
  | nil => simp [List.lookup, hb]
  | cons kv rest ih =>
    by_cases hk : kv.1 = k
    · have hb2 : (k2 == kv.1) = false := by rw [hk]; exact hb
      rw [List.lookup_cons, hb2]
      simpa [List.filter_cons, hk] using ih
    · cases hkk : (k2 == kv.1) with
      | true => simp [List.filter_cons, hk, List.lookup, hkk]
      | false => simpa [List.filter_cons, hk, List.lookup, hkk] using ih

theorem paramArray_get_insert_self (ps : ParamArray) (k v : String) :
    (ps.insert k v).get k = some v :=
  lookup_filter_append_self ps.entries k v

theorem paramArray_get_insert_other (ps : ParamArray) (k k2 v : String) (h : k2 ≠ k) :
    (ps.insert k v).get k2 = ps.get k2 :=
  lookup_filter_append_other ps.entries k k2 v h

/-! ## createEntities -/

/-- C7: on an exporter that holds no entities yet, `createEntities` names the
base surface shader `<base>_surface_shader`, creates a shading-map shader named
`<base>_shading_map_surface_shader` exactly when a shading-map sub-exporter was
resolved, and sets the material's "surface_shader" parameter to the shading-map
shader's name if that sub-exporter was resolved and to the base surface
shader's name otherwise, whatever the surface-network sub-exporter is. -/
theorem createEntities_material_surface_shader (g : Graph) (x : ShadingEngineExporter)
    (next : Nat) (h : x.holdsNoEntities) :
    (createEntities g x next).1.m_surfaceShader.name
        = some ((g x.m_object).name ++ "_surface_shader") ∧
      (createEntities g x next).1.m_shadingMapSurfaceShader.name
        = (if x.m_shadingMapNetworkExporter.isSome then
            some ((g x.m_object).name ++ "_shading_map_surface_shader") else none) ∧
      (createEntities g x next).1.m_material.param "surface_shader"
        = some (if x.m_shadingMapNetworkExporter.isSome then
            (g x.m_object).name ++ "_shading_map_surface_shader"
          else (g x.m_object).name ++ "_surface_shader") := by
  obtain ⟨_, _, hsm⟩ := h
  cases hx : x.m_shadingMapNetworkExporter <;>
    simp [createEntities, hx, hsm, Handle.null, Handle.reset, Handle.name, Handle.param,
      createEntity, Entity.insertParam, paramArray_get_insert_self]

/-- C7 at scene B, after `createExporters` has resolved both sub-exporters. -/
theorem createEntities_material_surface_shader_witness :
    (createExporters sceneUpstreamMap demoServices
        (ShadingEngineExporter.new 0 SessionMode.FinalRenderSession)).1.holdsNoEntities ∧
      (createEntities sceneUpstreamMap
          (createExporters sceneUpstreamMap demoServices
            (ShadingEngineExporter.new 0 SessionMode.FinalRenderSession)).1 2).1.m_material.param
          "surface_shader"
        = some "sg_shading_map_surface_shader" :=
  ⟨by decide,
   (createEntities_material_surface_shader sceneUpstreamMap
      (createExporters sceneUpstreamMap demoServices
        (ShadingEngineExporter.new 0 SessionMode.FinalRenderSession)).1 2 (by decide)).2.2⟩

/-! ## createExporters -/

/-- C1, evaluated on scene A: the shading engine `sg` has "surfaceShader" and
"asShadingMap" each fed by exactly one source, yet `createExporters` resolves
no shading-map sub-exporter (the "asShadingMap" plug is looked up on the
upstream node `lambert1`), `createEntities` creates no shading-map shader, and
the material's "surface_shader" parameter is the base shader's name
`sg_surface_shader`. -/
theorem both_inputs_connected_no_shading_map :
    ((findPlug (sceneBoth 0) "surfaceShader").isConnected = true ∧
      (findPlug (sceneBoth 0) "surfaceShader").connectedTo.length = 1 ∧
      (findPlug (sceneBoth 0) "asShadingMap").isConnected = true ∧
      (findPlug (sceneBoth 0) "asShadingMap").connectedTo.length = 1) ∧
    (createExporters sceneBoth demoServices
        (ShadingEngineExporter.new 0 SessionMode.FinalRenderSession)).1.m_shadingMapNetworkExporter
      = none ∧
    (createExporters sceneBoth demoServices
        (ShadingEngineExporter.new 0 SessionMode.FinalRenderSession)).2
      = [Event.createShadingNetworkExporter ShadingNetworkContext.SurfaceNetworkContext 1
          ⟨1, "outColor"⟩] ∧
    (allocated sceneBoth demoServices 0 SessionMode.FinalRenderSession 2).m_shadingMapSurfaceShader
      = Handle.null ∧
    (allocated sceneBoth demoServices 0 SessionMode.FinalRenderSession 2).m_material.param
        "surface_shader"
      = some "sg_surface_shader" ∧
    (allocated sceneBoth demoServices 0 SessionMode.FinalRenderSession 2).m_material.param
        "surface_shader"
      ≠ some "sg_shading_map_surface_shader" := by
  decide

/-- C4, evaluated on scene B: the shading engine `sg` has "surfaceShader" fed by
exactly one source and "asShadingMap" unconnected, yet `createExporters`
resolves a shading-map sub-exporter (from the "asShadingMap" plug of the
upstream node `shader1`), `createEntities` creates a shading-map shader, and the
material's "surface_shader" parameter is `sg_shading_map_surface_shader`. -/
theorem only_surface_connected_shading_map_created :
    ((findPlug (sceneUpstreamMap 0) "surfaceShader").isConnected = true ∧
      (findPlug (sceneUpstreamMap 0) "surfaceShader").connectedTo.length = 1 ∧
      (findPlug (sceneUpstreamMap 0) "asShadingMap").isConnected = false ∧
      (findPlug (sceneUpstreamMap 0) "asShadingMap").connectedTo = [] ∧
      (findPlug (sceneUpstreamMap 0) "asShadingMap").numConnectedChildren = 0) ∧
    (createExporters sceneUpstreamMap demoServices
        (ShadingEngineExporter.new 0 SessionMode.FinalRenderSession)).1.m_shadingMapNetworkExporter
      = some (demoServices ShadingNetworkContext.ShadingMapNetworkContext 2 ⟨2, "outColor"⟩) ∧
    (allocated sceneUpstreamMap demoServices 0
        SessionMode.FinalRenderSession 2).m_shadingMapSurfaceShader.name
      = some "sg_shading_map_surface_shader" ∧
    (allocated sceneUpstreamMap demoServices 0 SessionMode.FinalRenderSession 2).m_material.param
        "surface_shader"
      = some "sg_shading_map_surface_shader" ∧
    (allocated sceneUpstreamMap demoServices 0 SessionMode.FinalRenderSession 2).m_material.param
        "surface_shader"
      ≠ some "sg_surface_shader" := by
  decide

theorem createExporters_asShadingMap_log (g : Graph) (services : Services) (st : CreateState) :
    (createExporters_asShadingMap g services st).log
      = st.log ++ (createExporters_asShadingMap g services { st with log := [] }).log := by
  unfold createExporters_asShadingMap
  simp only []
  split
  · split <;> simp
  · split <;> simp

theorem createExporters_asShadingMap_no_surface_call (g : Graph) (services : Services)
    (st : CreateState) (n : Nat) (p : PlugRef)
    (h : Event.createShadingNetworkExporter ShadingNetworkContext.SurfaceNetworkContext n p
      ∉ st.log) :
    Event.createShadingNetworkExporter ShadingNetworkContext.SurfaceNetworkContext n p
      ∉ (createExporters_asShadingMap g services st).log := by
  unfold createExporters_asShadingMap
  simp only []
  split
  · split <;> simp [h]
  · split <;> simp [h]

theorem createExporters_asShadingMap_surface_exporter (g : Graph) (services : Services)
    (st : CreateState) :
    (createExporters_asShadingMap g services st).self.m_surfaceNetworkExporter
      = st.self.m_surfaceNetworkExporter := by
  unfold createExporters_asShadingMap
  simp only []
  split
  · split <;> simp
  · split <;> simp

/-- When the "surfaceShader" input is fed by exactly one source, the
"asShadingMap" plug that `createExporters` reads is the one of that source's
node, not the one of the shading engine. -/
theorem createExporters_shadingMap_read_upstream (g : Graph) (services : Services)
    (x : ShadingEngineExporter) (other : PlugRef)
    (hc : (findPlug (g x.m_object) "surfaceShader").isConnected = true)
    (ho : (findPlug (g x.m_object) "surfaceShader").connectedTo = [other]) :
    (createExporters g services x).1.m_shadingMapNetworkExporter
      = if (findPlug (g other.node) "asShadingMap").isConnected then
          match (findPlug (g other.node) "asShadingMap").connectedTo with
          | [o2] => some (services ShadingNetworkContext.ShadingMapNetworkContext o2.node o2)
          | _ => x.m_shadingMapNetworkExporter
        else x.m_shadingMapNetworkExporter := by
  simp only [createExporters, createExporters_surfaceShader, hc, ho, if_true,
    createExporters_asShadingMap]
  split
  · split <;> simp
  · split <;> simp

/-- C5: when the "surfaceShader" plug of the shading engine has no connection
of its own and several connected children, the "surfaceShader" part of
`createExporters` logs exactly the warning "Unsupported component connection to
shading engine." and changes nothing else; `createExporters` as a whole returns
with no surface-network sub-exporter, never calls the factory with the surface
context, and its events are that warning followed by those of the
"asShadingMap" part. -/
theorem createExporters_component_connections (g : Graph) (services : Services) (object : Nat)
    (mode : SessionMode)
    (hc : (findPlug (g object) "surfaceShader").isConnected = false)
    (hn : 2 ≤ (findPlug (g object) "surfaceShader").numConnectedChildren) :
    createExporters_surfaceShader g services
        { self := ShadingEngineExporter.new object mode, depNodeFn := object, log := [] }
      = { self := ShadingEngineExporter.new object mode, depNodeFn := object,
          log := [Event.warning "Unsupported component connection to shading engine."] } ∧
    (createExporters g services
        (ShadingEngineExporter.new object mode)).1.m_surfaceNetworkExporter = none ∧
    (∀ n p, Event.createShadingNetworkExporter ShadingNetworkContext.SurfaceNetworkContext n p
      ∉ (createExporters g services (ShadingEngineExporter.new object mode)).2) ∧
    (createExporters g services (ShadingEngineExporter.new object mode)).2
      = Event.warning "Unsupported component connection to shading engine." ::
        (createExporters_asShadingMap g services
          { self := ShadingEngineExporter.new object mode, depNodeFn := object, log := [] }).log := by
  have hne : (findPlug (g object) "surfaceShader").numConnectedChildren ≠ 0 := by omega
  have h1 : createExporters_surfaceShader g services
        { self := ShadingEngineExporter.new object mode, depNodeFn := object, log := [] }
      = { self := ShadingEngineExporter.new object mode, depNodeFn := object,
          log := [Event.warning "Unsupported component connection to shading engine."] } := by
    simp [createExporters_surfaceShader, hc, hne, unsupportedComponentConnection]
  have hobj : (ShadingEngineExporter.new object mode).m_object = object := rfl
  refine ⟨h1, ?_, ?_, ?_⟩
  · simp only [createExporters, hobj, h1, createExporters_asShadingMap_surface_exporter]
    rfl
  · intro n p
    simp only [createExporters, hobj, h1]
    apply createExporters_asShadingMap_no_surface_call
    simp
  · simp only [createExporters, hobj, h1]
    rw [createExporters_asShadingMap_log]
    rfl

/-- C5 at scene D. -/
theorem createExporters_component_connections_witness :
    ((findPlug (sceneComponents 0) "surfaceShader").isConnected = false ∧
      2 ≤ (findPlug (sceneComponents 0) "surfaceShader").numConnectedChildren) ∧
    (createExporters sceneComponents demoServices
        (ShadingEngineExporter.new 0 SessionMode.FinalRenderSession)).1.m_surfaceNetworkExporter
      = none :=
  ⟨by decide,
   (createExporters_component_connections sceneComponents demoServices 0
      SessionMode.FinalRenderSession (by decide) (by decide)).2.1⟩

/-- C10 as stated fails on scene C: both inputs of `sg` report being connected
and resolve to no source plug, and `createExporters` logs nothing at all. -/
theorem createExporters_no_source_logs_nothing :
    ((findPlug (sceneNoSource 0) "surfaceShader").isConnected = true ∧
      (findPlug (sceneNoSource 0) "surfaceShader").connectedTo.length ≠ 1 ∧
      (findPlug (sceneNoSource 0) "asShadingMap").isConnected = true ∧
      (findPlug (sceneNoSource 0) "asShadingMap").connectedTo.length ≠ 1) ∧
    (createExporters sceneNoSource demoServices
        (ShadingEngineExporter.new 0 SessionMode.FinalRenderSession)).2 = [] := by
  decide

/-- C10, amended: for each of the two inputs, whenever the plug that
`createExporters` looks up for it reports being connected and resolving its
sources yields a count other than one, that part of `createExporters` changes
nothing: it creates no sub-exporter, logs no warning and makes no factory
call. -/
theorem createExporters_input_count_not_one (context : ShadingNetworkContext) (g : Graph)
    (services : Services) (st : CreateState)
    (hc : (findPlug (g st.depNodeFn) (inputName context)).isConnected = true)
    (hn : (findPlug (g st.depNodeFn) (inputName context)).connectedTo.length ≠ 1) :
    createExporters_input context g services st = st := by
  cases context
  · simp only [inputName] at hc hn
    simp only [createExporters_input, createExporters_surfaceShader, hc, if_true]
    split
    · rename_i other ho
      rw [ho] at hn
      simp at hn
    · rfl
  · simp only [inputName] at hc hn
    simp only [createExporters_input, createExporters_asShadingMap, hc, if_true]
    split
    · rename_i other ho
      rw [ho] at hn
      simp at hn
    · rfl

/-- C10 amended, at the "asShadingMap" input of scene C. -/
theorem createExporters_input_count_not_one_witness :
    ((findPlug (sceneNoSource 0) (inputName ShadingNetworkContext.ShadingMapNetworkContext)).isConnected
        = true ∧
      (findPlug (sceneNoSource 0)
        (inputName ShadingNetworkContext.ShadingMapNetworkContext)).connectedTo.length ≠ 1) ∧
    createExporters_input ShadingNetworkContext.ShadingMapNetworkContext sceneNoSource demoServices
        { self := ShadingEngineExporter.new 0 SessionMode.FinalRenderSession, depNodeFn := 0,
          log := [] }
      = { self := ShadingEngineExporter.new 0 SessionMode.FinalRenderSession, depNodeFn := 0,
          log := [] } :=
  ⟨by decide,
   createExporters_input_count_not_one ShadingNetworkContext.ShadingMapNetworkContext
      sceneNoSource demoServices
      { self := ShadingEngineExporter.new 0 SessionMode.FinalRenderSession, depNodeFn := 0,
        log := [] } (by decide) (by decide)⟩

/-! ## Entity names -/

theorem surfaceShaderNames_createEntities (g : Graph) (x : ShadingEngineExporter) (next : Nat)
    (h : x.holdsNoEntities) :
    surfaceShaderNames (createEntities g x next).1
      = ((g x.m_object).name ++ "_surface_shader") ::
          (if x.m_shadingMapNetworkExporter.isSome then
            [(g x.m_object).name ++ "_shading_map_surface_shader"] else []) := by
  obtain ⟨_, _, hsm⟩ := h
  cases hx : x.m_shadingMapNetworkExporter <;>
    simp [surfaceShaderNames, createEntities, hx, hsm, Handle.null, Handle.reset, createEntity]

theorem str_shading_map_suffix (a : String) :
    a ++ "_shading_map_surface_shader" = (a ++ "_shading_map") ++ "_surface_shader" := by
  apply String.ext
  simp only [String.data_append, List.append_assoc]
  rfl

/-- C8 as stated fails on scene E: the engines `a_shading_map` (no shading map)
and `a` (with a shading map) have different names, and the base surface shader
of the first has the same name as the shading-map shader of the second. -/
theorem surface_shader_names_collide :
    (sceneTwoEngines 0).name ≠ (sceneTwoEngines 1).name ∧
    "a_shading_map_surface_shader"
      ∈ surfaceShaderNames (allocated sceneTwoEngines demoServices 0
          SessionMode.FinalRenderSession 0) ∧
    "a_shading_map_surface_shader"
      ∈ surfaceShaderNames (allocated sceneTwoEngines demoServices 1
          SessionMode.FinalRenderSession 2) := by
  decide

/-- C8, amended: for two shading engine nodes with different names, the surface
shader names `createEntities` produces for one and for the other have a name in
common exactly when one node's name is the other's followed by "_shading_map"
and that other node has a shading-map sub-exporter.  In particular two base
shader names never coincide, nor do two shading-map shader names. -/
theorem surface_shader_names_disjoint_iff (g : Graph) (x1 x2 : ShadingEngineExporter)
    (n1 n2 : Nat) (h1 : x1.holdsNoEntities) (h2 : x2.holdsNoEntities)
    (hne : (g x1.m_object).name ≠ (g x2.m_object).name) :
    (∃ s, s ∈ surfaceShaderNames (createEntities g x1 n1).1 ∧
        s ∈ surfaceShaderNames (createEntities g x2 n2).1)
      ↔ (((g x1.m_object).name = (g x2.m_object).name ++ "_shading_map" ∧
            x2.m_shadingMapNetworkExporter.isSome = true) ∨
         ((g x2.m_object).name = (g x1.m_object).name ++ "_shading_map" ∧
            x1.m_shadingMapNetworkExporter.isSome = true)) := by
  rw [surfaceShaderNames_createEntities g x1 n1 h1, surfaceShaderNames_createEntities g x2 n2 h2]
  generalize (g x1.m_object).name = a at *
  generalize (g x2.m_object).name = b at *
  have hbase : a ++ "_surface_shader" ≠ b ++ "_surface_shader" :=
    fun h => hne (str_append_right_cancel h)
  have hmap : a ++ "_shading_map_surface_shader" ≠ b ++ "_shading_map_surface_shader" :=
    fun h => hne (str_append_right_cancel h)
  have hab : a ++ "_surface_shader" = b ++ "_shading_map_surface_shader"
      ↔ a = b ++ "_shading_map" := by
    rw [str_shading_map_suffix]
    exact ⟨str_append_right_cancel, fun h => by rw [h]⟩
  have hba : a ++ "_shading_map_surface_shader" = b ++ "_surface_shader"
      ↔ b = a ++ "_shading_map" := by
    rw [str_shading_map_suffix]
    exact ⟨fun h => (str_append_right_cancel h).symm, fun h => by rw [h]⟩
  cases x1.m_shadingMapNetworkExporter <;> cases x2.m_shadingMapNetworkExporter <;>
    simp [hbase, hmap, hab, hba, eq_comm]

/-! ## flushEntities -/

theorem createExporters_surfaceShader_handles (g : Graph) (services : Services)
    (st : CreateState) :
    (createExporters_surfaceShader g services st).self.m_object = st.self.m_object ∧
    (createExporters_surfaceShader g services st).self.m_sessionMode = st.self.m_sessionMode ∧
    (createExporters_surfaceShader g services st).self.m_material = st.self.m_material ∧
    (createExporters_surfaceShader g services st).self.m_surfaceShader = st.self.m_surfaceShader ∧
    (createExporters_surfaceShader g services st).self.m_shadingMapSurfaceShader
      = st.self.m_shadingMapSurfaceShader := by
  unfold createExporters_surfaceShader
  simp only []
  split
  · split <;> simp
  · split <;> simp

theorem createExporters_asShadingMap_handles (g : Graph) (services : Services)
    (st : CreateState) :
    (createExporters_asShadingMap g services st).self.m_object = st.self.m_object ∧
    (createExporters_asShadingMap g services st).self.m_sessionMode = st.self.m_sessionMode ∧
    (createExporters_asShadingMap g services st).self.m_material = st.self.m_material ∧
    (createExporters_asShadingMap g services st).self.m_surfaceShader = st.self.m_surfaceShader ∧
    (createExporters_asShadingMap g services st).self.m_shadingMapSurfaceShader
      = st.self.m_shadingMapSurfaceShader := by
  unfold createExporters_asShadingMap
  simp only []
  split
  · split <;> simp
  · split <;> simp

/-- `createExporters` creates no entity and keeps node and session mode. -/
theorem createExporters_handles (g : Graph) (services : Services) (x : ShadingEngineExporter) :
    (createExporters g services x).1.m_object = x.m_object ∧
    (createExporters g services x).1.m_sessionMode = x.m_sessionMode ∧
    (createExporters g services x).1.m_material = x.m_material ∧
    (createExporters g services x).1.m_surfaceShader = x.m_surfaceShader ∧
    (createExporters g services x).1.m_shadingMapSurfaceShader = x.m_shadingMapSurfaceShader := by
  have h1 := createExporters_surfaceShader_handles g services
    { self := x, depNodeFn := x.m_object, log := [] }
  have h2 := createExporters_asShadingMap_handles g services
    (createExporters_surfaceShader g services { self := x, depNodeFn := x.m_object, log := [] })
  simp only [createExporters]
  refine ⟨h2.1.trans h1.1, h2.2.1.trans h1.2.1, h2.2.2.1.trans h1.2.2.1,
    h2.2.2.2.1.trans h1.2.2.2.1, h2.2.2.2.2.trans h1.2.2.2.2⟩

theorem createExporters_new_holdsNoEntities (g : Graph) (services : Services) (object : Nat)
    (mode : SessionMode) :
    (createExporters g services (ShadingEngineExporter.new object mode)).1.holdsNoEntities := by
  obtain ⟨_, _, h3, h4, h5⟩ := createExporters_handles g services
    (ShadingEngineExporter.new object mode)
  exact ⟨h3, h4, h5⟩

/-- After `createEntities` on an exporter that held no entities, `flushEntities`
returns, and the three collections' name counts are as follows. -/
theorem flushEntities_counts (p : ReleasePolicy) (g : Graph) (x : ShadingEngineExporter)
    (next : Nat) (asm : Assembly) (h : x.holdsNoEntities) (name : String) :
    ∃ x1 asm1, flushEntities p (createEntities g x next).1 asm = some (x1, asm1) ∧
      countNamed asm1.materials name
        = countNamed asm.materials name
          + (if (g x.m_object).name ++ "_material" = name then 1 else 0) ∧
      countNamed asm1.surface_shaders name
        = countNamed asm.surface_shaders name
          + (if (g x.m_object).name ++ "_surface_shader" = name then 1 else 0)
          + (if x.m_shadingMapNetworkExporter.isSome ∧
                (g x.m_object).name ++ "_shading_map_surface_shader" = name then 1 else 0) := by
  obtain ⟨hm, hs, hsm⟩ := h
  cases hx : x.m_shadingMapNetworkExporter <;> cases hy : x.m_surfaceNetworkExporter <;>
    cases p <;>
    simp only [flushEntities, createEntities, hx, hy, hsm, Handle.null, Handle.reset, Handle.get,
      Handle.release, Handle.insertParam, createEntity, Entity.insertParam, EntityVector.insert,
      bind, Option.bind, Option.isSome, Option.map, if_true, Bool.false_eq_true, if_false] <;>
    refine ⟨_, _, rfl, ?_⟩ <;>
    (simp [countNamed, List.countP_append, List.countP_cons] <;> omega)

/-- C3: for a host node named `<baseName>` and an assembly that holds no
entity named `<baseName>_material`, `<baseName>_surface_shader` or
`<baseName>_shading_map_surface_shader`, running `createExporters`,
`createEntities` and `flushEntities` on a new exporter succeeds and leaves the
materials collection with exactly one entity named `<baseName>_material`, and
the surface-shaders collection with exactly one entity named
`<baseName>_surface_shader` and with one entity named
`<baseName>_shading_map_surface_shader` if a shading-map sub-exporter was
resolved and none otherwise. -/
theorem flushEntities_names_exactly_once (p : ReleasePolicy) (g : Graph) (services : Services)
    (object : Nat) (mode : SessionMode) (next : Nat) (asm : Assembly)
    (hm : countNamed asm.materials ((g object).name ++ "_material") = 0)
    (hs : countNamed asm.surface_shaders ((g object).name ++ "_surface_shader") = 0)
    (hsm : countNamed asm.surface_shaders ((g object).name ++ "_shading_map_surface_shader")
      = 0) :
    ∃ x1 asm1, flushEntities p (allocated g services object mode next) asm = some (x1, asm1) ∧
      countNamed asm1.materials ((g object).name ++ "_material") = 1 ∧
      countNamed asm1.surface_shaders ((g object).name ++ "_surface_shader") = 1 ∧
      countNamed asm1.surface_shaders ((g object).name ++ "_shading_map_surface_shader")
        = (if (createExporters g services
                (ShadingEngineExporter.new object mode)).1.m_shadingMapNetworkExporter.isSome
            then 1 else 0) := by
  have hno := createExporters_new_holdsNoEntities g services object mode
  have hobj : (createExporters g services (ShadingEngineExporter.new object mode)).1.m_object
      = object := (createExporters_handles g services _).1
  have hd1 : (g object).name ++ "_shading_map_surface_shader"
      ≠ (g object).name ++ "_surface_shader" :=
    fun h => absurd (str_append_left_cancel h) (by decide)
  obtain ⟨x1, asm1, hf, hc1, _⟩ := flushEntities_counts p g _ next asm hno
    ((g object).name ++ "_material")
  obtain ⟨x2, asm2, hf2, _, hc2⟩ := flushEntities_counts p g _ next asm hno
    ((g object).name ++ "_surface_shader")
  obtain ⟨x3, asm3, hf3, _, hc3⟩ := flushEntities_counts p g _ next asm hno
    ((g object).name ++ "_shading_map_surface_shader")
  rw [hf] at hf2 hf3
  obtain ⟨_, rfl⟩ := Prod.mk.inj (Option.some.inj hf2)
  obtain ⟨_, rfl⟩ := Prod.mk.inj (Option.some.inj hf3)
  rw [hobj] at hc1 hc2 hc3
  refine ⟨x1, asm1, hf, ?_, ?_, ?_⟩
  · rw [hc1, hm]; simp
  · rw [hc2, hs]; simp [hd1]
  · rw [hc3, hsm]
    have hd2 : (g object).name ++ "_surface_shader"
        ≠ (g object).name ++ "_shading_map_surface_shader" := fun h => hd1 h.symm
    simp [hd2]

/-- C3 at scene B and an assembly holding other entities. -/
theorem flushEntities_names_exactly_once_witness :
    (countNamed demoAssembly.materials ((sceneUpstreamMap 0).name ++ "_material") = 0 ∧
      countNamed demoAssembly.surface_shaders ((sceneUpstreamMap 0).name ++ "_surface_shader")
        = 0 ∧
      countNamed demoAssembly.surface_shaders
        ((sceneUpstreamMap 0).name ++ "_shading_map_surface_shader") = 0) ∧
    ∃ x1 asm1,
      flushEntities ReleasePolicy.keepsPointer
          (allocated sceneUpstreamMap demoServices 0 SessionMode.ProgressiveRenderSession 2)
          demoAssembly = some (x1, asm1) ∧
      countNamed asm1.materials ((sceneUpstreamMap 0).name ++ "_material") = 1 ∧
      countNamed asm1.surface_shaders ((sceneUpstreamMap 0).name ++ "_surface_shader") = 1 ∧
      countNamed asm1.surface_shaders
          ((sceneUpstreamMap 0).name ++ "_shading_map_surface_shader")
        = (if (createExporters sceneUpstreamMap demoServices
                (ShadingEngineExporter.new 0
                  SessionMode.ProgressiveRenderSession)).1.m_shadingMapNetworkExporter.isSome
            then 1 else 0) :=
  ⟨by decide,
   flushEntities_names_exactly_once ReleasePolicy.keepsPointer sceneUpstreamMap demoServices 0
      SessionMode.ProgressiveRenderSession 2 demoAssembly (by decide) (by decide) (by decide)⟩

/-! ## Destruction -/

theorem remove_append_fresh (v l : List Entity) (u w : Nat) (md : EntityModel) (nm : String)
    (ps : ParamArray) (hv : ∀ a ∈ v, a.uid < u) (hw : u ≤ w) :
    EntityVector.remove (v ++ ⟨w, md, nm, ps⟩ :: l) (some w) = some (v ++ l) := by
  have hno : ∀ a ∈ v, ¬ ((a.uid == w) = true) := by
    intro a ha h
    have h1 := hv a ha
    have h2 : a.uid = w := by simpa using h
    omega
  simp only [EntityVector.remove]
  rw [if_pos (by simp)]
  rw [List.eraseP_append_right _ hno]
  simp [List.eraseP_cons]

theorem remove_absent (v : List Entity) (u w : Nat) (hv : ∀ a ∈ v, a.uid < u) (hw : u ≤ w) :
    EntityVector.remove v (some w) = none := by
  simp only [EntityVector.remove]
  rw [if_neg]
  simp only [List.any_eq_true, not_exists, not_and]
  intro a ha h
  have h1 := hv a ha
  have h2 : a.uid = w := by simpa using h
  omega

/-- With handles that keep their pointer after `release`, destroying a
progressive-mode exporter after `createEntities` and `flushEntities` gives back
the assembly as it was before `flushEntities`. -/
theorem destructor_after_flush (g : Graph) (x : ShadingEngineExporter) (next : Nat)
    (asm : Assembly) (h : x.holdsNoEntities)
    (hmode : x.m_sessionMode = SessionMode.ProgressiveRenderSession) (hb : asm.below next) :
    ∃ x1 asm1,
      flushEntities ReleasePolicy.keepsPointer (createEntities g x next).1 asm = some (x1, asm1) ∧
      asm1.materials.length = asm.materials.length + 1 ∧
      asm1.surface_shaders.length
        = asm.surface_shaders.length + (if x.m_shadingMapNetworkExporter.isSome then 2 else 1) ∧
      destructor x1 asm1 = some asm := by
  obtain ⟨hm, hs, hsm⟩ := h
  obtain ⟨hb1, hb2⟩ := hb
  cases hx : x.m_shadingMapNetworkExporter <;> cases hy : x.m_surfaceNetworkExporter <;>
    simp only [flushEntities, createEntities, hx, hy, hsm, Handle.null, Handle.reset, Handle.get,
      Handle.release, Handle.insertParam, createEntity, Entity.insertParam, EntityVector.insert,
      bind, Option.bind, Option.isSome, Option.map, if_true, Bool.false_eq_true, if_false] <;>
    refine ⟨_, _, rfl, ?_⟩ <;>
    simp [destructor, removalRequests, hmode, Handle.get, Assembly.removeAll, Assembly.remove,
      remove_append_fresh _ _ next _ _ _ _ hb1, remove_append_fresh _ _ next _ _ _ _ hb2]

/-- With handles that become null on `release`, the destructor of a
progressive-mode exporter after `flushEntities` asks the materials collection
to remove a null pointer. -/
theorem destructor_after_flush_clearsPointer (g : Graph) (x : ShadingEngineExporter) (next : Nat)
    (asm : Assembly) (h : x.holdsNoEntities)
    (hmode : x.m_sessionMode = SessionMode.ProgressiveRenderSession) :
    ∃ x1 asm1,
      flushEntities ReleasePolicy.clearsPointer (createEntities g x next).1 asm
        = some (x1, asm1) ∧
      removalRequests x1 = [(Collection.materials, none), (Collection.surface_shaders, none)] ∧
      destructor x1 asm1 = none := by
  obtain ⟨hm, hs, hsm⟩ := h
  cases hx : x.m_shadingMapNetworkExporter <;> cases hy : x.m_surfaceNetworkExporter <;>
    simp only [flushEntities, createEntities, hx, hy, hsm, Handle.null, Handle.reset, Handle.get,
      Handle.release, Handle.insertParam, createEntity, Entity.insertParam, EntityVector.insert,
      bind, Option.bind, Option.isSome, Option.map, if_true, Bool.false_eq_true, if_false] <;>
    refine ⟨_, _, rfl, ?_⟩ <;>
    simp [destructor, removalRequests, hmode, Handle.get, Assembly.removeAll, Assembly.remove,
      EntityVector.remove]

/-- C2: for an exporter constructed in progressive session mode and any
assembly (all of whose entities were created before the exporter's), after
`createExporters` and `createEntities`, `flushEntities` succeeds and inserts
one material and one or two surface shaders, and destroying the exporter then
gives back exactly the assembly as it was before `flushEntities`.  The entity
handles are taken to keep their pointer after `release`. -/
theorem progressive_destruction_restores_assembly (g : Graph) (services : Services)
    (object : Nat) (next : Nat) (asm : Assembly) (hb : asm.below next) :
    ∃ x1 asm1,
      flushEntities ReleasePolicy.keepsPointer
          (allocated g services object SessionMode.ProgressiveRenderSession next) asm
        = some (x1, asm1) ∧
      asm1.materials.length = asm.materials.length + 1 ∧
      asm1.surface_shaders.length
        = asm.surface_shaders.length +
          (if (createExporters g services (ShadingEngineExporter.new object
                SessionMode.ProgressiveRenderSession)).1.m_shadingMapNetworkExporter.isSome
            then 2 else 1) ∧
      destructor x1 asm1 = some asm :=
  destructor_after_flush g
    (createExporters g services
      (ShadingEngineExporter.new object SessionMode.ProgressiveRenderSession)).1 next asm
    (createExporters_new_holdsNoEntities g services object SessionMode.ProgressiveRenderSession)
    (createExporters_handles g services _).2.1 hb

/-- C2 at scene B and an assembly holding other entities. -/
theorem progressive_destruction_restores_assembly_witness :
    demoAssembly.below 2 ∧
    ∃ x1 asm1,
      flushEntities ReleasePolicy.keepsPointer
          (allocated sceneUpstreamMap demoServices 0 SessionMode.ProgressiveRenderSession 2)
          demoAssembly
        = some (x1, asm1) ∧
      asm1.materials.length = demoAssembly.materials.length + 1 ∧
      asm1.surface_shaders.length
        = demoAssembly.surface_shaders.length +
          (if (createExporters sceneUpstreamMap demoServices (ShadingEngineExporter.new 0
                SessionMode.ProgressiveRenderSession)).1.m_shadingMapNetworkExporter.isSome
            then 2 else 1) ∧
      destructor x1 asm1 = some demoAssembly :=
  ⟨by decide,
   progressive_destruction_restores_assembly sceneUpstreamMap demoServices 0 2 demoAssembly
      (by decide)⟩

/-- C9 as stated fails on scene B: the progressive-mode exporter has run
`createEntities` and never `flushEntities`, and its destructor issues three
`remove` calls on the assembly's collections; the result is not the unchanged
assembly. -/
theorem destructor_without_flush_removes :
    (allocated sceneUpstreamMap demoServices 0
        SessionMode.ProgressiveRenderSession 2).m_sessionMode
      = SessionMode.ProgressiveRenderSession ∧
    removalRequests
        (allocated sceneUpstreamMap demoServices 0 SessionMode.ProgressiveRenderSession 2)
      = [(Collection.materials, some 4), (Collection.surface_shaders, some 2),
         (Collection.surface_shaders, some 3)] ∧
    destructor (allocated sceneUpstreamMap demoServices 0 SessionMode.ProgressiveRenderSession 2)
        demoAssembly
      ≠ some demoAssembly := by
  decide

/-- C9, amended: for an exporter in progressive session mode on which
`createEntities` has run and `flushEntities` has not, the exporter still owns
its entities, and destruction nevertheless issues `remove` calls on the
assembly's materials and surface-shaders collections for the material, the base
surface shader and, if one was created, the shading-map shader.  None of these
calls names an entity of the assembly, and the model gives no resulting
assembly for them. -/
theorem destructor_without_flush (g : Graph) (x : ShadingEngineExporter) (next : Nat)
    (asm : Assembly) (h : x.holdsNoEntities)
    (hmode : x.m_sessionMode = SessionMode.ProgressiveRenderSession) (hb : asm.below next) :
    (createEntities g x next).1.m_material.owned = true ∧
    (createEntities g x next).1.m_surfaceShader.owned = true ∧
    (createEntities g x next).1.m_shadingMapSurfaceShader.owned
      = x.m_shadingMapNetworkExporter.isSome ∧
    removalRequests (createEntities g x next).1
      = (Collection.materials,
          some (if x.m_shadingMapNetworkExporter.isSome then next + 2 else next + 1)) ::
        (Collection.surface_shaders, some next) ::
        (if x.m_shadingMapNetworkExporter.isSome then
          [(Collection.surface_shaders, some (next + 1))] else []) ∧
    (∀ r ∈ removalRequests (createEntities g x next).1, ∀ u, r.2 = some u →
      (∀ e ∈ asm.materials, e.uid ≠ u) ∧ (∀ e ∈ asm.surface_shaders, e.uid ≠ u)) ∧
    destructor (createEntities g x next).1 asm = none := by
  obtain ⟨hm, hs, hsm⟩ := h
  obtain ⟨hb1, hb2⟩ := hb
  have hreq : removalRequests (createEntities g x next).1
      = (Collection.materials,
          some (if x.m_shadingMapNetworkExporter.isSome then next + 2 else next + 1)) ::
        (Collection.surface_shaders, some next) ::
        (if x.m_shadingMapNetworkExporter.isSome then
          [(Collection.surface_shaders, some (next + 1))] else []) := by
    cases hx : x.m_shadingMapNetworkExporter <;>
      simp [removalRequests, createEntities, hx, hsm, hmode, Handle.null, Handle.reset,
        Handle.get, createEntity, Entity.insertParam]
  have hfresh : ∀ u, next ≤ u →
      (∀ e ∈ asm.materials, e.uid ≠ u) ∧ (∀ e ∈ asm.surface_shaders, e.uid ≠ u) := by
    intro u hu
    exact ⟨fun e he => by have := hb1 e he; omega, fun e he => by have := hb2 e he; omega⟩
  refine ⟨?_, ?_, ?_, hreq, ?_, ?_⟩
  · simp [createEntities, Handle.reset]
  · cases hx : x.m_shadingMapNetworkExporter <;> simp [createEntities, hx, Handle.reset]
  · cases hx : x.m_shadingMapNetworkExporter <;>
      simp [createEntities, hx, hsm, Handle.reset, Handle.null]
  · rw [hreq]
    intro r hr u hu
    apply hfresh
    cases hx : x.m_shadingMapNetworkExporter <;> simp [hx] at hr
    · rcases hr with rfl | rfl <;> simp at hu <;> omega
    · rcases hr with rfl | rfl | rfl <;> simp at hu <;> omega
  · rw [destructor, hreq]
    have h0 : EntityVector.remove asm.materials
        (some (if x.m_shadingMapNetworkExporter.isSome then next + 2 else next + 1)) = none := by
      apply remove_absent _ next _ hb1
      split <;> omega
    simp [Assembly.removeAll, Assembly.remove, h0]

/-- C9 amended, at scene B. -/
theorem destructor_without_flush_witness :
    ((createExporters sceneUpstreamMap demoServices
        (ShadingEngineExporter.new 0 SessionMode.ProgressiveRenderSession)).1.holdsNoEntities ∧
      (createExporters sceneUpstreamMap demoServices
        (ShadingEngineExporter.new 0 SessionMode.ProgressiveRenderSession)).1.m_sessionMode
        = SessionMode.ProgressiveRenderSession ∧
      demoAssembly.below 2) ∧
    destructor (createEntities sceneUpstreamMap
        (createExporters sceneUpstreamMap demoServices
          (ShadingEngineExporter.new 0 SessionMode.ProgressiveRenderSession)).1 2).1 demoAssembly
      = none :=
  ⟨by decide,
   (destructor_without_flush sceneUpstreamMap
      (createExporters sceneUpstreamMap demoServices
        (ShadingEngineExporter.new 0 SessionMode.ProgressiveRenderSession)).1 2 demoAssembly
      (by decide) (by decide) (by decide)).2.2.2.2.2⟩

/-! ## Material parameters and name collisions -/

/-- C6: after `createEntities` (on an exporter that held no entities),
`flushEntities` succeeds and appends to the materials collection the exporter's
material, whose "osl_surface" parameter is the surface-network sub-exporter's
`shaderGroupName()` when that sub-exporter exists and is absent when it does
not, and whose "surface_shader" parameter is the one `createEntities` set. -/
theorem flushEntities_material_parameters (p : ReleasePolicy) (g : Graph)
    (x : ShadingEngineExporter) (next : Nat) (asm : Assembly) (h : x.holdsNoEntities) :
    ∃ x1 asm1 m,
      flushEntities p (createEntities g x next).1 asm = some (x1, asm1) ∧
      asm1.materials = asm.materials ++ [m] ∧
      (createEntities g x next).1.m_material.get = some m.uid ∧
      (createEntities g x next).1.m_material.name = some m.name ∧
      m.params.get "osl_surface"
        = (createEntities g x next).1.m_surfaceNetworkExporter.map
            (fun e => e.shaderGroupName) ∧
      m.params.get "surface_shader"
        = (createEntities g x next).1.m_material.param "surface_shader" ∧
      m.params.get "surface_shader"
        = some (if x.m_shadingMapNetworkExporter.isSome then
            (g x.m_object).name ++ "_shading_map_surface_shader"
          else (g x.m_object).name ++ "_surface_shader") := by
  obtain ⟨hm, hs, hsm⟩ := h
  have hk : "surface_shader" ≠ "osl_surface" := by decide
  have hk2 : "osl_surface" ≠ "surface_shader" := by decide
  have he : ParamArray.empty.get "osl_surface" = none := rfl
  cases hx : x.m_shadingMapNetworkExporter <;> cases hy : x.m_surfaceNetworkExporter <;>
    cases p <;>
    simp only [flushEntities, createEntities, hx, hy, hsm, Handle.null, Handle.reset, Handle.get,
      Handle.release, Handle.insertParam, createEntity, Entity.insertParam, EntityVector.insert,
      bind, Option.bind, Option.isSome, Option.map, if_true, Bool.false_eq_true, if_false] <;>
    refine ⟨_, _, _, rfl, rfl, ?_⟩ <;>
    simp [Handle.name, Handle.param, paramArray_get_insert_self,
      paramArray_get_insert_other _ _ _ _ hk, paramArray_get_insert_other _ _ _ _ hk2, he]

/-- C6 at scene B. -/
theorem flushEntities_material_parameters_witness :
    (createExporters sceneUpstreamMap demoServices
        (ShadingEngineExporter.new 0 SessionMode.FinalRenderSession)).1.holdsNoEntities ∧
    ∃ x1 asm1 m,
      flushEntities ReleasePolicy.keepsPointer
          (createEntities sceneUpstreamMap (createExporters sceneUpstreamMap demoServices
            (ShadingEngineExporter.new 0 SessionMode.FinalRenderSession)).1 2).1 demoAssembly
        = some (x1, asm1) ∧
      asm1.materials = demoAssembly.materials ++ [m] ∧
      m.params.get "osl_surface" = some "surface_1_outColor" ∧
      m.params.get "surface_shader" = some "sg_shading_map_surface_shader" := by
  refine ⟨by decide, ?_⟩
  obtain ⟨x1, asm1, m, h1, h2, _, _, h5, _, h7⟩ :=
    flushEntities_material_parameters ReleasePolicy.keepsPointer sceneUpstreamMap
      (createExporters sceneUpstreamMap demoServices
        (ShadingEngineExporter.new 0 SessionMode.FinalRenderSession)).1 2 demoAssembly (by decide)
  exact ⟨x1, asm1, m, h1, h2, h5, h7⟩

/-- C8 amended, at scene E. -/
theorem surface_shader_names_disjoint_iff_witness :
    ((ShadingEngineExporter.new 0 SessionMode.FinalRenderSession).holdsNoEntities ∧
      (createExporters sceneTwoEngines demoServices
        (ShadingEngineExporter.new 1 SessionMode.FinalRenderSession)).1.holdsNoEntities ∧
      (sceneTwoEngines 0).name ≠ (sceneTwoEngines 1).name) ∧
    ((∃ s, s ∈ surfaceShaderNames (createEntities sceneTwoEngines
            (ShadingEngineExporter.new 0 SessionMode.FinalRenderSession) 0).1 ∧
        s ∈ surfaceShaderNames (createEntities sceneTwoEngines
            (createExporters sceneTwoEngines demoServices
              (ShadingEngineExporter.new 1 SessionMode.FinalRenderSession)).1 2).1)
      ↔ (((sceneTwoEngines 0).name = (sceneTwoEngines 1).name ++ "_shading_map" ∧
            (createExporters sceneTwoEngines demoServices
              (ShadingEngineExporter.new 1
                SessionMode.FinalRenderSession)).1.m_shadingMapNetworkExporter.isSome = true) ∨
         ((sceneTwoEngines 1).name = (sceneTwoEngines 0).name ++ "_shading_map" ∧
            (ShadingEngineExporter.new 0
              SessionMode.FinalRenderSession).m_shadingMapNetworkExporter.isSome = true))) :=
  ⟨by decide,
   surface_shader_names_disjoint_iff sceneTwoEngines
      (ShadingEngineExporter.new 0 SessionMode.FinalRenderSession)
      (createExporters sceneTwoEngines demoServices
        (ShadingEngineExporter.new 1 SessionMode.FinalRenderSession)).1 0 2
      (by decide) (by decide) (by decide)⟩

end ShadingEngine
